import Mathlib

/-!
# Verification of the voice command dispatch engine

Shallow embedding of the voice-driven command recognition and dispatch core of
the network-device dashboard (`src/web/static/js/voice-interface.js`,
`src/web/static/js/voice-commands.js`, `src/web/static/js/voice-accessibility.js`).

Strings are modelled as lists of Unicode codepoints (`JStr`); the utterances,
table keys and announcements of the source are ASCII, and the source's
`toLowerCase`/`toUpperCase` are modelled by their ASCII action.  JavaScript
regular expressions are embedded via a small regular-expression datatype with a
Brzozowski-derivative matcher; each `RegExp` literal of the source is
transcribed node by node.  JavaScript numbers appearing in the announcement
arithmetic are modelled by exact rationals (`Rat`); at every concrete input
used below the float computation of the source is exact enough that the
rational model agrees (all quotients have denominator 1 or 100 and the final
`Math.round` lands on the same integer).  Fallible or DOM-bound operations are
modelled as effect traces (`Effect`).
-/

/-- A JavaScript string, as its list of codepoints. -/
abbrev JStr := List Nat

/-- Codepoints of a Lean string literal (used to transcribe source literals). -/
def jstr (s : String) : JStr := s.data.map Char.toNat

/-- The apostrophe codepoint, used in keys such as `show arby's`. -/
def apos : Nat := 39

/-- ASCII action of `String.prototype.toLowerCase` on one codepoint. -/
def lowerC (n : Nat) : Nat := if 65 ≤ n ∧ n ≤ 90 then n + 32 else n

/-- ASCII action of `String.prototype.toUpperCase` on one codepoint. -/
def upperC (n : Nat) : Nat := if 97 ≤ n ∧ n ≤ 122 then n - 32 else n

/-- `s.toLowerCase()`. -/
def jsToLower (s : JStr) : JStr := s.map lowerC

/-- `s.toUpperCase()`. -/
def jsToUpper (s : JStr) : JStr := s.map upperC

/-- Does `s` start with `p`?  (Helper for substring containment.) -/
def startsWithJ : JStr → JStr → Bool
  | _, [] => true
  | [], _ :: _ => false
  | a :: as, b :: bs => a = b && startsWithJ as bs

/-- `s.includes(sub)` of JavaScript: `sub` occurs contiguously in `s`. -/
def incl (s sub : JStr) : Bool :=
  startsWithJ s sub ||
    match s with
    | [] => false
    | _ :: rest => incl rest sub

/-- JavaScript truthiness of a possibly-absent string (absent and `""` are falsy). -/
def truthyO (x : Option JStr) : Bool :=
  match x with
  | none => false
  | some s => !s.isEmpty

/-- `x || d` of JavaScript on a possibly-absent string (absent and `""` are falsy). -/
def jsOrS (x : Option JStr) (d : JStr) : JStr :=
  match x with
  | none => d
  | some s => if s.isEmpty then d else s

/-- `x || d` of JavaScript on a possibly-absent number (absent and `0` are falsy). -/
def jsOrNat (x : Option Nat) (d : Nat) : Nat :=
  match x with
  | none => d
  | some v => if v = 0 then d else v

/-- Decimal rendering of a natural number, as a JS template literal renders it. -/
def natDec (n : Nat) : JStr := (Nat.toDigits 10 n).map Char.toNat

/-- Decimal rendering of an integer. -/
def intDec (i : Int) : JStr :=
  if i < 0 then 45 :: natDec i.natAbs else natDec i.natAbs

/-- `Math.round` (half toward positive infinity), on the exact-rational model. -/
def jsRound (q : Rat) : Int := ⌊q + 1/2⌋

/-! ## A small regular-expression engine

`RegExp` literals of the source are transcribed into `Rx` and matched with
Brzozowski derivatives.  Only whether (and where) a regex matches is needed by
the claims, never the captured groups, so greedy/lazy distinctions (which do
not affect the matched language) are irrelevant here. -/

/-- Character classes appearing in the source's regexes. -/
inductive CCls where
  /-- a literal character -/
  | one (n : Nat)
  /-- `\s` (whitespace; the source only ever sees ASCII whitespace) -/
  | wsp
  /-- `\d` -/
  | digit
  /-- `.` (any character except line terminators) -/
  | dot
  deriving DecidableEq, Repr

/-- Membership in a character class. -/
def CCls.memb : CCls → Nat → Bool
  | .one m, n => n = m
  | .wsp, n => n = 32 || n = 9 || n = 10 || n = 11 || n = 12 || n = 13
  | .digit, n => 48 ≤ n && n ≤ 57
  | .dot, n => !(n = 10 || n = 13 || n = 8232 || n = 8233)

/-- Regular expressions. -/
inductive Rx where
  /-- matches nothing -/
  | fail
  /-- matches the empty string -/
  | eps
  /-- matches one character of the class -/
  | cls (c : CCls)
  /-- concatenation -/
  | seq (a b : Rx)
  /-- alternation (`|`) -/
  | alt (a b : Rx)
  /-- Kleene star (`*`) -/
  | star (a : Rx)
  deriving DecidableEq, Repr

/-- Smart concatenation (keeps derivatives small). -/
def Rx.sseq : Rx → Rx → Rx
  | .fail, _ => .fail
  | _, .fail => .fail
  | .eps, r => r
  | r, .eps => r
  | a, b => .seq a b

/-- Smart alternation (keeps derivatives small). -/
def Rx.salt : Rx → Rx → Rx
  | .fail, r => r
  | r, .fail => r
  | a, b => .alt a b

/-- Does the regex accept the empty string? -/
def Rx.nullable : Rx → Bool
  | .fail => false
  | .eps => true
  | .cls _ => false
  | .seq a b => a.nullable && b.nullable
  | .alt a b => a.nullable || b.nullable
  | .star _ => true

/-- Brzozowski derivative by one character. -/
def Rx.deriv : Rx → Nat → Rx
  | .fail, _ => .fail
  | .eps, _ => .fail
  | .cls c, n => if c.memb n then .eps else .fail
  | .seq a b, n =>
      if a.nullable then Rx.salt (Rx.sseq (a.deriv n) b) (b.deriv n)
      else Rx.sseq (a.deriv n) b
  | .alt a b, n => Rx.salt (a.deriv n) (b.deriv n)
  | .star a, n => Rx.sseq (a.deriv n) (.star a)

/-- Does the regex match some prefix of `s`? -/
def rxMatchPre : Rx → JStr → Bool
  | r, [] => r.nullable
  | r, c :: cs => r.nullable || rxMatchPre (r.deriv c) cs

/-- Does the regex match all of `s`? -/
def rxMatchAll (r : Rx) : JStr → Bool
  | [] => r.nullable
  | c :: cs => rxMatchAll (r.deriv c) cs

/-- `s.match(re) !== null` for an unanchored JS regex: a match starting at some
position of `s`. -/
def rxSearch (r : Rx) : JStr → Bool
  | [] => r.nullable
  | c :: cs => rxMatchPre r (c :: cs) || rxSearch r cs

/-- A match at some position of `s` that extends to the end of `s` (for the one
source regex anchored with `$`). -/
def rxSearchEnd (r : Rx) : JStr → Bool
  | [] => r.nullable
  | c :: cs => rxMatchAll r (c :: cs) || rxSearchEnd r cs

/-- A literal character. -/
def rxC (n : Nat) : Rx := .cls (.one n)

/-- A literal string. -/
def rxS (s : String) : Rx := (jstr s).foldr (fun c r => Rx.seq (rxC c) r) .eps

/-- `\s` -/
def rxWs : Rx := .cls .wsp

/-- `\s+` -/
def ws1 : Rx := .seq rxWs (.star rxWs)

/-- `\s*` -/
def ws0 : Rx := .star rxWs

/-- `\d+` -/
def num1 : Rx := .seq (.cls .digit) (.star (.cls .digit))

/-- `.+` (whether lazy or greedy does not change the matched language) -/
def any1 : Rx := .seq (.cls .dot) (.star (.cls .dot))

/-- `r?` -/
def rxOpt (r : Rx) : Rx := .alt r .eps

/-- n-ary alternation, first alternative first (JS tries them in order). -/
def rxAlts : List Rx → Rx
  | [] => .fail
  | [r] => r
  | r :: rs => .alt r (rxAlts rs)

/-- n-ary concatenation. -/
def rxCat : List Rx → Rx
  | [] => .eps
  | [r] => r
  | r :: rs => .seq r (rxCat rs)

/-! ## The pattern grammar

Transcriptions of the `RegExp` literals registered by `setupAdvancedCommands`
and `setupLTMCommands` in `voice-commands.js`, in registration order.  Capture
group parentheses are transparent for matching and are not represented. -/

/-- `(bww|buffalo wild wings|arbys?|arby'?s|sonic)` -/
def rxBrand : Rx :=
  rxAlts [rxS "bww", rxS "buffalo wild wings",
    .seq (rxS "arby") (rxOpt (rxC 115)),
    rxCat [rxS "arby", rxOpt (rxC apos), rxC 115],
    rxS "sonic"]

/-- `/investigate\s+(brand)\s+store\s+(\d+)\s*(?:for\s+(.+))?/` -/
def rxStoreInvestigation : Rx :=
  rxCat [rxS "investigate", ws1, rxBrand, ws1, rxS "store", ws1, num1, ws0,
    rxOpt (rxCat [rxS "for", ws1, any1])]

/-- `/search\s+(?:for\s+)?(.+?)(?:\s+in\s+(.+?))?(?:\s+from\s+(.+?))?(?:\s+in\s+the\s+last\s+(.+))?/` -/
def rxAdvancedSearch : Rx :=
  rxCat [rxS "search", ws1, rxOpt (.seq (rxS "for") ws1), any1,
    rxOpt (rxCat [ws1, rxS "in", ws1, any1]),
    rxOpt (rxCat [ws1, rxS "from", ws1, any1]),
    rxOpt (rxCat [ws1, rxS "in", ws1, rxS "the", ws1, rxS "last", ws1, any1])]

/-- `/show\s+(?:me\s+)?(?:the\s+)?(critical|high|medium|low)\s+(?:security\s+)?(?:events|alerts)(?:\s+for\s+(.+?))?/` -/
def rxSecurityEvents : Rx :=
  rxCat [rxS "show", ws1, rxOpt (.seq (rxS "me") ws1), rxOpt (.seq (rxS "the") ws1),
    rxAlts [rxS "critical", rxS "high", rxS "medium", rxS "low"], ws1,
    rxOpt (.seq (rxS "security") ws1), .alt (rxS "events") (rxS "alerts"),
    rxOpt (rxCat [ws1, rxS "for", ws1, any1])]

/-- `/show\s+(?:me\s+)?threat\s+intelligence\s+for\s+(brand)(?:\s+in\s+the\s+last\s+(.+))?/` -/
def rxThreatIntel : Rx :=
  rxCat [rxS "show", ws1, rxOpt (.seq (rxS "me") ws1), rxS "threat", ws1,
    rxS "intelligence", ws1, rxS "for", ws1, rxBrand,
    rxOpt (rxCat [ws1, rxS "in", ws1, rxS "the", ws1, rxS "last", ws1, any1])]

/-- `/(?:check|show)\s+web\s+filter\s+(?:status|policies)\s+for\s+(brand)(?:\s+store\s+(\d+))?/` -/
def rxWebFilter : Rx :=
  rxCat [.alt (rxS "check") (rxS "show"), ws1, rxS "web", ws1, rxS "filter", ws1,
    .alt (rxS "status") (rxS "policies"), ws1, rxS "for", ws1, rxBrand,
    rxOpt (rxCat [ws1, rxS "store", ws1, num1])]

/-- `/(?:check|what\s+is\s+the|show\s+me\s+the)\s+(?:overall\s+)?(?:security\s+)?status(?:\s+of\s+(.+?))?/` -/
def rxSystemStatus : Rx :=
  rxCat [rxAlts [rxS "check", rxCat [rxS "what", ws1, rxS "is", ws1, rxS "the"],
      rxCat [rxS "show", ws1, rxS "me", ws1, rxS "the"]], ws1,
    rxOpt (.seq (rxS "overall") ws1), rxOpt (.seq (rxS "security") ws1), rxS "status",
    rxOpt (rxCat [ws1, rxS "of", ws1, any1])]

/-- `/generate\s+(?:a\s+)?(?:(security|threat|compliance|executive)\s+)?report\s+for\s+(brand)(?:\s+store\s+(\d+))?(?:\s+for\s+the\s+last\s+(.+))?/` -/
def rxReport : Rx :=
  rxCat [rxS "generate", ws1, rxOpt (.seq (rxS "a") ws1),
    rxOpt (.seq (rxAlts [rxS "security", rxS "threat", rxS "compliance", rxS "executive"]) ws1),
    rxS "report", ws1, rxS "for", ws1, rxBrand,
    rxOpt (rxCat [ws1, rxS "store", ws1, num1]),
    rxOpt (rxCat [ws1, rxS "for", ws1, rxS "the", ws1, rxS "last", ws1, any1])]

/-- `/(?:show\s+me\s+)?(?:more\s+)?(?:details|information|data)/` -/
def rxShowMore : Rx :=
  rxCat [rxOpt (rxCat [rxS "show", ws1, rxS "me", ws1]), rxOpt (.seq (rxS "more") ws1),
    rxAlts [rxS "details", rxS "information", rxS "data"]]

/-- `/go\s+back/` -/
def rxGoBack : Rx := rxCat [rxS "go", ws1, rxS "back"]

/-- `/(?:alert|emergency|urgent|critical)\s*:?\s*(.+)/` -/
def rxEmergency : Rx :=
  rxCat [rxAlts [rxS "alert", rxS "emergency", rxS "urgent", rxS "critical"],
    ws0, rxOpt (rxC 58), ws0, any1]

/-- `/(?:check|investigate|analyze)\s+all\s+(stores|locations|sites)(?:\s+for\s+(.+?))?/` -/
def rxBulk : Rx :=
  rxCat [rxAlts [rxS "check", rxS "investigate", rxS "analyze"], ws1, rxS "all", ws1,
    rxAlts [rxS "stores", rxS "locations", rxS "sites"],
    rxOpt (rxCat [ws1, rxS "for", ws1, any1])]

/-- `/(?:analyze|show\s+me|find)\s+(?:security\s+)?patterns?(?:\s+in\s+(.+?))?(?:\s+for\s+the\s+last\s+(.+))?/` -/
def rxLtmPatterns : Rx :=
  rxCat [rxAlts [rxS "analyze", .seq (rxS "show") (.seq ws1 (rxS "me")), rxS "find"], ws1,
    rxOpt (.seq (rxS "security") ws1), rxS "pattern", rxOpt (rxC 115),
    rxOpt (rxCat [ws1, rxS "in", ws1, any1]),
    rxOpt (rxCat [ws1, rxS "for", ws1, rxS "the", ws1, rxS "last", ws1, any1])]

/-- `/predict\s+(?:security\s+)?(?:issues|incidents|threats|problems)\s+for\s+(brand)(?:\s+(?:in\s+the\s+)?next\s+(.+?))?/` -/
def rxLtmPredict : Rx :=
  rxCat [rxS "predict", ws1, rxOpt (.seq (rxS "security") ws1),
    rxAlts [rxS "issues", rxS "incidents", rxS "threats", rxS "problems"], ws1,
    rxS "for", ws1, rxBrand,
    rxOpt (rxCat [ws1, rxOpt (rxCat [rxS "in", ws1, rxS "the", ws1]), rxS "next", ws1, any1])]

/-- `/(?:what\s+have\s+you\s+)?learn(?:ed)?\s+(?:from\s+)?(.+?)(?:\s+incidents?|\s+events?)?/` -/
def rxLtmLearn : Rx :=
  rxCat [rxOpt (rxCat [rxS "what", ws1, rxS "have", ws1, rxS "you", ws1]),
    rxS "learn", rxOpt (rxS "ed"), ws1, rxOpt (.seq (rxS "from") ws1), any1,
    rxOpt (rxAlts [rxCat [ws1, rxS "incident", rxOpt (rxC 115)],
      rxCat [ws1, rxS "event", rxOpt (rxC 115)]])]

/-- `/(?:show\s+me\s+)?(?:correlations?|relationships?|connections?)\s+between\s+(.+?)(?:\s+and\s+(.+))?/` -/
def rxLtmCorrelation : Rx :=
  rxCat [rxOpt (rxCat [rxS "show", ws1, rxS "me", ws1]),
    rxAlts [.seq (rxS "correlation") (rxOpt (rxC 115)),
      .seq (rxS "relationship") (rxOpt (rxC 115)),
      .seq (rxS "connection") (rxOpt (rxC 115))], ws1,
    rxS "between", ws1, any1, rxOpt (rxCat [ws1, rxS "and", ws1, any1])]

/-- `/(?:show\s+me\s+)?(?:attack\s+paths?|propagation\s+paths?)\s+(?:from\s+(.+?))?(?:\s+to\s+(.+))?/` -/
def rxLtmAttackPath : Rx :=
  rxCat [rxOpt (rxCat [rxS "show", ws1, rxS "me", ws1]),
    rxAlts [rxCat [rxS "attack", ws1, rxS "path", rxOpt (rxC 115)],
      rxCat [rxS "propagation", ws1, rxS "path", rxOpt (rxC 115)]], ws1,
    rxOpt (rxCat [rxS "from", ws1, any1]), rxOpt (rxCat [ws1, rxS "to", ws1, any1])]

/-- `/(?:show\s+me\s+)?(?:ltm\s+)?(?:insights?|analytics?|intelligence)(?:\s+for\s+(.+))?/` -/
def rxLtmInsights : Rx :=
  rxCat [rxOpt (rxCat [rxS "show", ws1, rxS "me", ws1]), rxOpt (.seq (rxS "ltm") ws1),
    rxAlts [.seq (rxS "insight") (rxOpt (rxC 115)),
      .seq (rxS "analytic") (rxOpt (rxC 115)), rxS "intelligence"],
    rxOpt (rxCat [ws1, rxS "for", ws1, any1])]

/-- The patterns registered by `setupAdvancedCommands`, with the names of their
handlers, in registration order. -/
def advancedPatterns : List (JStr × Rx) :=
  [(jstr "handleStoreInvestigation", rxStoreInvestigation),
   (jstr "handleAdvancedLogSearch", rxAdvancedSearch),
   (jstr "handleSecurityEvents", rxSecurityEvents),
   (jstr "handleThreatIntelligence", rxThreatIntel),
   (jstr "handleWebFilterStatus", rxWebFilter),
   (jstr "handleSystemStatus", rxSystemStatus),
   (jstr "handleReportGeneration", rxReport),
   (jstr "handleShowMore", rxShowMore),
   (jstr "handleGoBack", rxGoBack),
   (jstr "handleEmergencyCommand", rxEmergency),
   (jstr "handleBulkOperation", rxBulk)]

/-- The patterns additionally registered by `setupLTMCommands` when the LTM
startup probe succeeds, in registration order. -/
def ltmPatterns : List (JStr × Rx) :=
  [(jstr "handlePatternAnalysis", rxLtmPatterns),
   (jstr "handlePredictiveAnalysis", rxLtmPredict),
   (jstr "handleLearningQuery", rxLtmLearn),
   (jstr "handleCorrelationAnalysis", rxLtmCorrelation),
   (jstr "handleAttackPathAnalysis", rxLtmAttackPath),
   (jstr "handleLTMInsights", rxLtmInsights)]

/-- `voiceInterface.commandPatterns` after engine startup: advanced patterns,
then the LTM patterns when the capability flag is set. -/
def commandPatterns (ltm : Bool) : List (JStr × Rx) :=
  advancedPatterns ++ if ltm then ltmPatterns else []

/-! ## The exact-phrase command table

`this.voiceCommands` from `setupVoiceCommands` in `voice-interface.js`, in
insertion order (`Object.keys` order for these string keys). -/

/-- The action bound to an exact-phrase table entry. -/
inductive CmdAction where
  /-- `executeNavigation(sectionId)` -/
  | navigate (sectionId : JStr)
  /-- `executeInvestigation(brand)` -/
  | investigation (brand : JStr)
  /-- `executeFortiAnalyzerAction(action)` -/
  | fortiAnalyzer (action : JStr)
  /-- `executeWebFiltersAction(action)` -/
  | webFilters (action : JStr)
  /-- `executeSystemAction(action)` -/
  | system (action : JStr)
  deriving DecidableEq, Repr

/-- The key `show arby's` (apostrophe built explicitly). -/
def keyShowArbys : JStr := jstr "show arby" ++ [apos] ++ jstr "s"

/-- The key `investigate arby's` (apostrophe built explicitly). -/
def keyInvestigateArbys : JStr := jstr "investigate arby" ++ [apos] ++ jstr "s"

/-- The exact-phrase command table of `setupVoiceCommands`. -/
def voiceCommands : List (JStr × CmdAction) :=
  [(jstr "show overview", .navigate (jstr "overview")),
   (jstr "go to overview", .navigate (jstr "overview")),
   (jstr "show dashboard", .navigate (jstr "overview")),
   (jstr "show investigation", .navigate (jstr "investigation")),
   (jstr "open investigation", .navigate (jstr "investigation")),
   (jstr "investigate store", .navigate (jstr "investigation")),
   (jstr "show fortianalyzer", .navigate (jstr "fortianalyzer")),
   (jstr "open fortianalyzer", .navigate (jstr "fortianalyzer")),
   (jstr "show logs", .navigate (jstr "fortianalyzer")),
   (jstr "show web filters", .navigate (jstr "webfilters")),
   (jstr "open web filters", .navigate (jstr "webfilters")),
   (jstr "show filters", .navigate (jstr "webfilters")),
   (jstr "show log analysis", .navigate (jstr "log-analysis")),
   (jstr "search logs", .navigate (jstr "log-analysis")),
   (jstr "analyze logs", .navigate (jstr "log-analysis")),
   (jstr "show buffalo wild wings", .navigate (jstr "brand-BWW")),
   (jstr "show bww", .navigate (jstr "brand-BWW")),
   (jstr "show arbys", .navigate (jstr "brand-ARBYS")),
   (keyShowArbys, .navigate (jstr "brand-ARBYS")),
   (jstr "show sonic", .navigate (jstr "brand-SONIC")),
   (jstr "investigate bww", .investigation (jstr "BWW")),
   (jstr "investigate buffalo wild wings", .investigation (jstr "BWW")),
   (jstr "investigate arbys", .investigation (jstr "ARBYS")),
   (keyInvestigateArbys, .investigation (jstr "ARBYS")),
   (jstr "investigate sonic", .investigation (jstr "SONIC")),
   (jstr "show threat intelligence", .fortiAnalyzer (jstr "threats")),
   (jstr "show threats", .fortiAnalyzer (jstr "threats")),
   (jstr "show analytics", .fortiAnalyzer (jstr "analytics")),
   (jstr "generate report", .fortiAnalyzer (jstr "report")),
   (jstr "security report", .fortiAnalyzer (jstr "report")),
   (jstr "start web filter server", .webFilters (jstr "start")),
   (jstr "stop web filter server", .webFilters (jstr "stop")),
   (jstr "show policies", .webFilters (jstr "policies")),
   (jstr "show ssl status", .webFilters (jstr "ssl")),
   (jstr "refresh data", .system (jstr "refresh")),
   (jstr "refresh", .system (jstr "refresh")),
   (jstr "check connection", .system (jstr "connection")),
   (jstr "help", .system (jstr "help")),
   (jstr "what can you do", .system (jstr "help")),
   (jstr "what is the status", .system (jstr "status")),
   (jstr "system status", .system (jstr "status")),
   (jstr "health check", .system (jstr "health"))]

/-- Association-list lookup by string key (first hit wins, as in JS). -/
def assocLookup {α : Type} : List (JStr × α) → JStr → Option α
  | [], _ => none
  | (k, a) :: rest, t => if k = t then some a else assocLookup rest t

/-- The own-property part of `this.voiceCommands[transcript]`: lookup among
the authored keys of the table (the recognizer lower-cases and trims the
transcript before dispatch, so keys are compared against the case-normalized
utterance).  The full JavaScript bracket read, which also walks the prototype
chain, is `jsGetVoiceCommands` below. -/
def lookupExact (t : JStr) : Option CmdAction := assocLookup voiceCommands t

/-- The function-valued member names of `Object.prototype`, visible to a
JavaScript bracket read on any object literal when its own keys miss. -/
def objectProtoFnKeys : List JStr :=
  [jstr "constructor", jstr "hasOwnProperty", jstr "isPrototypeOf",
   jstr "propertyIsEnumerable", jstr "toLocaleString", jstr "toString",
   jstr "valueOf", jstr "__defineGetter__", jstr "__defineSetter__",
   jstr "__lookupGetter__", jstr "__lookupSetter__"]

/-- All inherited `Object.prototype` member names a bracket read can hit: the
function-valued members plus the `__proto__` accessor (whose value is the
prototype object — truthy but not callable). -/
def objectProtoKeys : List JStr := objectProtoFnKeys ++ [jstr "__proto__"]

/-- Result of the JavaScript property read `this.voiceCommands[transcript]`:
an own (authored) entry, an inherited function-valued `Object.prototype`
member (truthy and callable), the `__proto__` accessor (truthy, not
callable — calling it throws a TypeError), or `undefined`. -/
inductive CmdLookup where
  | own (a : CmdAction)
  | protoFn (name : JStr)
  | protoObj
  | notFound
  deriving DecidableEq, Repr

/-- The JavaScript bracket read on the command table: own keys shadow the
prototype chain; otherwise inherited `Object.prototype` members are hit. -/
def jsGetVoiceCommands (t : JStr) : CmdLookup :=
  match lookupExact t with
  | some a => .own a
  | none =>
    if objectProtoFnKeys.contains t then .protoFn t
    else if t = jstr "__proto__" then .protoObj
    else .notFound

/-- The bidirectional substring layer of `processVoiceCommand`:
`Object.keys(this.voiceCommands).filter(c => transcript.includes(c) ||
c.includes(transcript))`, keeping the first match. -/
def findSubstrKey (t : JStr) : Option (JStr × CmdAction) :=
  voiceCommands.find? fun p => incl t p.1 || incl p.1 t

/-- Fallback extractor regex
`/investigate\s+(brand)\s+store\s+(\d+)/` of `processVoiceCommand`. -/
def rxFbStore : Rx :=
  rxCat [rxS "investigate", ws1, rxBrand, ws1, rxS "store", ws1, num1]

/-- Fallback extractor regex `/search\s+(?:for\s+)?(.+?)(?:\s+in\s+(.+?))?$/`
of `processVoiceCommand` (anchored at the end of the string). -/
def rxFbSearch : Rx :=
  rxCat [rxS "search", ws1, rxOpt (.seq (rxS "for") ws1), any1,
    rxOpt (rxCat [ws1, rxS "in", ws1, any1])]

/-! ## Dispatch

The engine state and the effect-trace model of dispatch.  Handlers are the
unit of dispatch: `processVoiceCommand` only selects one and invokes it, so
at dispatch level an invocation is recorded as an `Effect.invoke`; the
handlers verified by the claims are embedded separately below. -/

/-- A context entry's data snapshot (union of the snapshot fields pushed by
the various handlers; absent fields are `none`, as in the JS object). -/
structure CtxData where
  brand : Option JStr := none
  storeId : Option JStr := none
  focus : Option JStr := none
  query : Option JStr := none
  context : Option JStr := none
  source : Option JStr := none
  timeframe : Option JStr := none
  severity : Option JStr := none
  reportType : Option JStr := none
  deriving DecidableEq, Repr

/-- A context stack entry `{ type, data, timestamp }` (`ctype` embeds `type`). -/
structure ContextEntry where
  ctype : JStr
  data : CtxData
  timestamp : Nat
  deriving DecidableEq, Repr

/-- The mutable state owned by the dispatch engine: the context stack, the
active display section (`currentSection` of `dashboard.js`, set by the
navigation primitive `showSection`), the page input fields the handlers
populate, and the LTM capability flag. -/
structure EngineState where
  contextStack : List ContextEntry := []
  activeSection : JStr := jstr "overview"
  investigationBrand : JStr := []
  investigationStore : JStr := []
  investigationPeriod : JStr := []
  logSearchQuery : JStr := []
  logSearchTimeframe : JStr := []
  logSearchBrand : JStr := []
  logSearchSource : JStr := []
  webfilterBrand : JStr := []
  webfilterStoreId : JStr := []
  activeInvestigation : Option CtxData := none
  ltmEnabled : Bool := false
  deriving DecidableEq, Repr

/-- The engine state at startup. -/
def initState : EngineState := {}

/-- Observable effects of the dispatch core.  Announcements are `speak`;
`invoke` records that dispatch selected a grammar/fallback handler;
`runAction` records that an exact-phrase/substring table action was run;
`fetch`/`fetchPost` are calls to the external data service; `schedule`
records a `setTimeout` continuation; `display` records a DOM rendering call
(page rendering is outside the verified core). -/
inductive Effect where
  | speak (text : JStr)
  | invoke (handlerName : JStr)
  | runAction (a : CmdAction)
  | fetch (url : JStr)
  | fetchPost (url : JStr)
  | schedule (name : JStr)
  | display (name : JStr)
  /-- invocation of an inherited `Object.prototype` member leaked by the
  bracket read of the command table -/
  | callInherited (name : JStr)
  /-- an attempted call of a non-function value: a thrown TypeError aborting
  the dispatch -/
  | throwTypeError
  deriving DecidableEq, Repr

/-- The fixed terminal announcement of `processVoiceCommand`. -/
def notRecognizedMsg : JStr :=
  jstr "Command not recognized. Say \"help\" for available commands."

/-- The grammar scan of the overriding `processVoiceCommand` installed by
`voice-commands.js`: first registered pattern that matches wins. -/
def findGrammar (ltm : Bool) (t : JStr) : Option JStr :=
  match (commandPatterns ltm).find? fun p => rxSearch p.2 t with
  | some p => some p.1
  | none => none

/-- The original `processVoiceCommand` of `voice-interface.js`: the truthiness
test `if (this.voiceCommands[transcript])` with the full JavaScript bracket
read (own keys, else inherited `Object.prototype` members — so `constructor`
speaks "Command recognized" and calls the inherited member, and `__proto__`
speaks and then throws a TypeError on the attempted call); then the
bidirectional substring match over the own keys (`Object.keys` returns own
keys only), then the two fallback extractors, then the fixed "not
recognized" announcement. -/
def originalProcessCommand (st : EngineState) (t : JStr) : EngineState × List Effect :=
  match jsGetVoiceCommands t with
  | .own a => (st, [.speak (jstr "Command recognized"), .runAction a])
  | .protoFn name => (st, [.speak (jstr "Command recognized"), .callInherited name])
  | .protoObj => (st, [.speak (jstr "Command recognized"), .throwTypeError])
  | .notFound =>
    match findSubstrKey t with
    | some (_, a) => (st, [.speak (jstr "Command recognized"), .runAction a])
    | none =>
      if rxSearch rxFbStore t then
        (st, [.invoke (jstr "executeStoreInvestigation")])
      else if rxSearchEnd rxFbSearch t then
        (st, [.invoke (jstr "executeLogSearch")])
      else
        (st, [.speak notRecognizedMsg])

/-- The composed dispatcher: the override installed on DOM-ready by
`voice-commands.js` scans the grammar patterns first and only falls back to
the original layered processing when none matches. -/
def processVoiceCommand (ltm : Bool) (st : EngineState) (t : JStr) :
    EngineState × List Effect :=
  match findGrammar ltm t with
  | some h => (st, [.invoke h])
  | none => originalProcessCommand st t

/-! ## Utility tables (`voice-commands.js`) -/

/-- The brand-alias table of `normalizeBrandName` (identical in
`voice-interface.js` and `voice-commands.js`); the `arby's` key's apostrophe
is built explicitly. -/
def brandMap : List (JStr × JStr) :=
  [(jstr "bww", jstr "BWW"),
   (jstr "buffalo wild wings", jstr "BWW"),
   (jstr "arbys", jstr "ARBYS"),
   (jstr "arby" ++ [apos] ++ jstr "s", jstr "ARBYS"),
   (jstr "sonic", jstr "SONIC")]

/-- The string-valued cases of `normalizeBrandName`: alias-table lookup among
the own keys on the lower-cased input, with case-normalized (upper-cased)
pass-through otherwise.  The JavaScript bracket read additionally hits
inherited `Object.prototype` members (and then returns the member itself,
not a string); that full read semantics is `normalizeBrandNameJs` below.
The handler embeddings use this string model: on the inherited-name inputs
the leaked member changes no field compared by the round-trip and gating
claims. -/
def normalizeBrandName (brandInput : JStr) : JStr :=
  match assocLookup brandMap (jsToLower brandInput) with
  | some code => code
  | none => jsToUpper brandInput

/-- A JavaScript value produced by the brand normalization: a string, or an
inherited `Object.prototype` member leaked by the bracket read (truthy, so
the `||` default does not fire for it). -/
inductive JsVal where
  | str (s : JStr)
  | protoMember (name : JStr)
  deriving DecidableEq, Repr

/-- `normalizeBrandName` with the full JavaScript object-read semantics:
`brandMap[brandInput.toLowerCase()]` also hits inherited members of
`Object.prototype`, which are truthy, so `|| brandInput.toUpperCase()` does
not fall through for them and the inherited member itself is returned. -/
def normalizeBrandNameJs (brandInput : JStr) : JsVal :=
  match assocLookup brandMap (jsToLower brandInput) with
  | some code => .str code
  | none =>
    if objectProtoKeys.contains (jsToLower brandInput) then
      .protoMember (jsToLower brandInput)
    else .str (jsToUpper brandInput)

/-- The display-name table of `getBrandDisplayName` (the `Arby's` value's
apostrophe is built explicitly). -/
def brandNames : List (JStr × JStr) :=
  [(jstr "BWW", jstr "Buffalo Wild Wings"),
   (jstr "ARBYS", jstr "Arby" ++ [apos] ++ jstr "s"),
   (jstr "SONIC", jstr "Sonic Drive-In")]

/-- `getBrandDisplayName`. -/
def getBrandDisplayName (brandCode : JStr) : JStr :=
  match assocLookup brandNames brandCode with
  | some n => n
  | none => brandCode

/-- The phrase table of `parseTimeframe`. -/
def timeMap : List (JStr × JStr) :=
  [(jstr "hour", jstr "1h"), (jstr "last hour", jstr "1h"),
   (jstr "day", jstr "24h"), (jstr "last day", jstr "24h"),
   (jstr "24 hours", jstr "24h"),
   (jstr "week", jstr "7d"), (jstr "last week", jstr "7d"),
   (jstr "month", jstr "30d"), (jstr "last month", jstr "30d")]

/-- `parseTimeframe`: `null` for absent input, phrase-table lookup on the
lower-cased input with pass-through for unrecognized phrases.  (JS `if
(!timeInput) return null` also fires on the empty string.  The bracket read
`timeMap[...]` shares the prototype-chain caveat of `normalizeBrandNameJs`:
at the inherited names `constructor` etc. the program yields the inherited
member; the string model below covers the cases the claims compare — the
round-trip claim's fields are unaffected either way.) -/
def parseTimeframe (timeInput : Option JStr) : Option JStr :=
  match timeInput with
  | none => none
  | some t =>
    if t.isEmpty then none
    else some (match assocLookup timeMap (jsToLower t) with
      | some code => code
      | none => t)

/-- `inferTimeframeFromFocus`. -/
def inferTimeframeFromFocus (focus : JStr) : JStr :=
  if incl focus (jstr "recent") || incl focus (jstr "current") then jstr "1h"
  else if incl focus (jstr "today") then jstr "24h"
  else if incl focus (jstr "week") then jstr "7d"
  else if incl focus (jstr "month") then jstr "30d"
  else jstr "24h"

/-! ## Context stack and navigation -/

/-- `pushContext(type, data)`: append `{ type, data, timestamp }`, then drop
the oldest entry (`shift()`) once the length exceeds 10. -/
def pushContext (ctype : JStr) (data : CtxData) (ts : Nat) (st : EngineState) :
    EngineState :=
  let stack := st.contextStack ++ [⟨ctype, data, ts⟩]
  { st with contextStack := if stack.length > 10 then stack.tail else stack }

/-- `getCurrentContext()`: the top (most recent) entry, or `null`. -/
def getCurrentContext (st : EngineState) : Option ContextEntry :=
  st.contextStack.getLast?

/-- `contextStack.pop()` — drop the top entry (the dispatch engine's only
stack removal). -/
def popCurrent (st : EngineState) : EngineState :=
  { st with contextStack := st.contextStack.dropLast }

/-- The navigation primitive `showSection(id)` of `dashboard.js`, an external
interface of the core (spec §6): sets the active section.  DOM class
toggling, the navigation announcement hook and section data loading are page
rendering, outside the verified core. -/
def showSection (sectionId : JStr) (st : EngineState) : EngineState :=
  { st with activeSection := sectionId }

/-- `restoreContext(context)`: re-applies a snapshot's navigation fields for
the `investigation` and `log-search` context types; all other types fall
through the `switch` unchanged.  (JS `if (context.data.brand)` guards are
truthiness checks.) -/
def restoreContext (ctx : Option ContextEntry) (st : EngineState) : EngineState :=
  match ctx with
  | none => st
  | some c =>
    if c.ctype = jstr "investigation" then
      let st1 := showSection (jstr "investigation") st
      let st2 := if truthyO c.data.brand then
          { st1 with investigationBrand := c.data.brand.getD [] } else st1
      if truthyO c.data.storeId then
        { st2 with investigationStore := c.data.storeId.getD [] } else st2
    else if c.ctype = jstr "log-search" then
      let st1 := showSection (jstr "log-analysis") st
      if truthyO c.data.query then
        { st1 with logSearchQuery := c.data.query.getD [] } else st1
    else st

/-- `handleGoBack()`: with more than one entry, pop the current context and
restore the previous one; otherwise announce and navigate to the overview
without popping. -/
def handleGoBack (st : EngineState) : EngineState × List Effect :=
  if st.contextStack.length > 1 then
    let st1 := popCurrent st
    (restoreContext (getCurrentContext st1) st1,
     [.speak (jstr "Going back to previous view")])
  else
    (showSection (jstr "overview") st, [.speak (jstr "Going back to overview")])

/-! ## Context-pushing intent handlers (`voice-commands.js`)

The synchronous behavior of the six handlers that push a context entry:
normalization of captured fields, the context push, the navigation mutation,
the page input fields they populate, the announcement, and the `setTimeout`
continuations (recorded as `Effect.schedule`). -/

/-- One invocation of a context-pushing handler, with its captured fields
(optional captures are `none` when the group did not participate). -/
inductive HandlerCall where
  /-- `handleStoreInvestigation(matches)`: brand, store id, optional focus -/
  | storeInvestigation (brandRaw storeId : JStr) (focus : Option JStr)
  /-- `handleAdvancedLogSearch(matches)`: query, optional context/source/timeframe -/
  | advancedLogSearch (query : JStr) (context source timeframeRaw : Option JStr)
  /-- `handleSecurityEvents(matches)`: severity, optional context -/
  | securityEvents (severity : JStr) (context : Option JStr)
  /-- `handleThreatIntelligence(matches)`: brand, optional timeframe -/
  | threatIntelligence (brandRaw : JStr) (timeframeRaw : Option JStr)
  /-- `handleWebFilterStatus(matches)`: brand, optional store id -/
  | webFilterStatus (brandRaw : JStr) (storeId : Option JStr)
  /-- `handleReportGeneration(matches)`: optional type, brand, optional store id,
  optional timeframe -/
  | reportGeneration (reportTypeRaw : Option JStr) (brandRaw : JStr)
      (storeId timeframeRaw : Option JStr)
  deriving DecidableEq, Repr

/-- Run one context-pushing handler (`ts` is the `Date.now()` timestamp of the
push). -/
def runHandler (c : HandlerCall) (ts : Nat) (st : EngineState) :
    EngineState × List Effect :=
  match c with
  | .storeInvestigation brandRaw storeId focus =>
    let brand := normalizeBrandName brandRaw
    let inv : CtxData := { brand := some brand, storeId := some storeId, focus := focus }
    let st1 := { st with activeInvestigation := some inv }
    let st2 := pushContext (jstr "investigation") inv ts st1
    let message := jstr "Investigating " ++ getBrandDisplayName brand ++
      jstr " store " ++ storeId ++
      (if truthyO focus then jstr " focusing on " ++ focus.getD [] else [])
    let st3 := showSection (jstr "investigation") st2
    let st4 := { st3 with investigationBrand := brand, investigationStore := storeId }
    let st5 := if truthyO focus then
        { st4 with investigationPeriod := inferTimeframeFromFocus (focus.getD []) }
      else st4
    (st5, [.speak message, .schedule (jstr "runInvestigation")])
  | .advancedLogSearch query context source timeframeRaw =>
    let timeframe := jsOrS (parseTimeframe timeframeRaw) (jstr "24h")
    let st1 := pushContext (jstr "log-search")
      { query := some query, context := context, source := source,
        timeframe := some timeframe } ts st
    let message := jstr "Searching for " ++ query ++
      (if truthyO context then jstr " in " ++ context.getD [] else []) ++
      (if truthyO source then jstr " from " ++ source.getD [] else []) ++
      jstr " for the last " ++ timeframe
    let st2 := showSection (jstr "log-analysis") st1
    let st3 := { st2 with logSearchQuery := query, logSearchTimeframe := timeframe }
    let st4 := if truthyO context then
        let brand := normalizeBrandName (context.getD [])
        if !brand.isEmpty then { st3 with logSearchBrand := brand } else st3
      else st3
    let st5 := if truthyO source then
        let normalizedSource :=
          if incl (jsToLower (source.getD [])) (jstr "forti") then jstr "fortianalyzer"
          else jstr "webfilters"
        { st4 with logSearchSource := normalizedSource }
      else st4
    (st5, [.speak message, .schedule (jstr "searchLogs")])
  | .securityEvents severity context =>
    let st1 := pushContext (jstr "security-events")
      { severity := some severity, context := context } ts st
    let message := jstr "Showing " ++ severity ++ jstr " security events" ++
      (if truthyO context then jstr " for " ++ context.getD [] else [])
    let st2 := showSection (jstr "fortianalyzer") st1
    (st2, [.speak message, .schedule (jstr "filterSecurityEventsBySeverity")])
  | .threatIntelligence brandRaw timeframeRaw =>
    let brand := normalizeBrandName brandRaw
    let timeframe := jsOrS (parseTimeframe timeframeRaw) (jstr "24h")
    let st1 := pushContext (jstr "threat-intelligence")
      { brand := some brand, timeframe := some timeframe } ts st
    let message := jstr "Loading threat intelligence for " ++
      getBrandDisplayName brand ++ jstr " for the last " ++ timeframe
    let st2 := showSection (jstr "fortianalyzer") st1
    (st2, [.speak message, .schedule (jstr "fetchThreats+announceThreatIntelligence")])
  | .webFilterStatus brandRaw storeId =>
    let brand := normalizeBrandName brandRaw
    let st1 := pushContext (jstr "web-filter-status")
      { brand := some brand, storeId := storeId } ts st
    let message := jstr "Checking web filter status for " ++
      getBrandDisplayName brand ++
      (if truthyO storeId then jstr " store " ++ storeId.getD [] else [])
    let st2 := showSection (jstr "webfilters") st1
    if truthyO storeId then
      (({ st2 with webfilterBrand := brand, webfilterStoreId := storeId.getD [] }),
       [.speak message, .schedule (jstr "viewStoreWebFilters")])
    else
      (st2, [.speak message])
  | .reportGeneration reportTypeRaw brandRaw storeId timeframeRaw =>
    let reportType := jsOrS reportTypeRaw (jstr "security")
    let brand := normalizeBrandName brandRaw
    let timeframe := jsOrS (parseTimeframe timeframeRaw) (jstr "7d")
    let st1 := pushContext (jstr "report-generation")
      { reportType := some reportType, brand := some brand, storeId := storeId,
        timeframe := some timeframe } ts st
    let message := jstr "Generating " ++ reportType ++ jstr " report for " ++
      getBrandDisplayName brand ++
      (if truthyO storeId then jstr " store " ++ storeId.getD [] else []) ++
      jstr " for the last " ++ timeframe
    let st2 := showSection (jstr "fortianalyzer") st1
    (st2, [.speak message, .schedule (jstr "fetchReport+announceReportResults")])

/-! ## Result announcer: threat intelligence (`announceThreatIntelligence`) -/

/-- The `threat_summary` metric fields read by the announcer; absent fields
are `none` (defaulted by the `|| 0` / `|| 1` guards of the source). -/
structure ThreatSummary where
  total_threats : Option Nat := none
  blocked_threats : Option Nat := none
  deriving DecidableEq, Repr

/-- A threat-endpoint payload as seen by the announcer (`data.threat_summary`
may be absent, in which case the announcer returns without announcing). -/
structure ThreatData where
  threat_summary : Option ThreatSummary := none
  deriving DecidableEq, Repr

/-- The denominator `Math.max(threats.total_threats || 1, 1)` of the block
rate (never zero: a missing or zero total falls back to 1). -/
def threatDenominator (t : ThreatSummary) : Nat :=
  max (jsOrNat t.total_threats 1) 1

/-- `Math.round(((threats.blocked_threats || 0) / Math.max(threats.total_threats
|| 1, 1)) * 100)`, on the exact-rational model of JS numbers. -/
def blockRatePercent (t : ThreatSummary) : Int :=
  jsRound (((jsOrNat t.blocked_threats 0 : Rat) / (threatDenominator t : Rat)) * 100)

/-- The quality-tier sentence appended by the announcer: `>95` → excellent,
`>90` → good, otherwise the default tier. -/
def tierSentence (rate : Int) : JStr :=
  if rate > 95 then jstr "Excellent threat protection."
  else if rate > 90 then jstr "Good threat protection."
  else jstr "Consider reviewing security policies."

/-- `announceThreatIntelligence(data)`: no announcement without a
`threat_summary`; otherwise one spoken summary with zero-defaulted counts,
the divide-by-zero-guarded block rate, and the tier sentence. -/
def announceThreatIntelligence (d : ThreatData) : List Effect :=
  match d.threat_summary with
  | none => []
  | some t =>
    let rate := blockRatePercent t
    [.speak (jstr "Threat intelligence summary: " ++
      natDec (jsOrNat t.total_threats 0) ++ jstr " total threats detected, " ++
      natDec (jsOrNat t.blocked_threats 0) ++ jstr " successfully blocked. " ++
      jstr "Block rate: " ++ intDec rate ++ jstr "%. " ++ tierSentence rate)]

/-! ## LTM intelligence handlers (`voice-commands.js`)

The capability-gated handlers of the optional LTM subsystem.  Each takes the
parsed JSON of its data call as an argument (`none` models a transport error
caught by the handler's `try`/`catch`); the announcement builders are
embedded below the handlers.  Request bodies and URL percent-encoding are
wire-format details outside the verified core (spec §6). -/

/-- The fixed announcement of every capability-gated handler when the LTM
probe failed. -/
def ltmNotAvailableMsg : JStr := jstr "LTM intelligence system not available"

/-- The learning POST `sendVoiceCommandToLTM` issues after a handler's data
call (guarded by the same capability flag). -/
def ltmVoiceCommandUrl : JStr := jstr "/api/ltm/voice/command"

/-- Scanner for the leftmost match of `/(\d+)\s*(unit1|unit2|...)s?/i` (the
shape of `parseTimeframeToHours` / `parseTimeframeToDays`): at each start
position, a maximal digit run, maximal whitespace, then the first unit word
that fits.  For this pattern shape maximal munch coincides with the
backtracking regex semantics (a shorter digit run or whitespace run leaves
the unit word starting on a digit or a space, which cannot match). -/
def takeDigits : JStr → List Nat × JStr
  | [] => ([], [])
  | c :: r =>
    if CCls.memb .digit c then
      let (d, rest) := takeDigits r
      (c :: d, rest)
    else ([], c :: r)

/-- Numeric value of a digit run (`parseInt`). -/
def digitsToNat (l : List Nat) : Nat := l.foldl (fun acc c => acc * 10 + (c - 48)) 0

/-- Skip maximal whitespace. -/
def skipWs : JStr → JStr
  | [] => []
  | c :: r => if CCls.memb .wsp c then skipWs r else c :: r

/-- See `takeDigits`: leftmost `(\d+)\s*(unit)` capture (the input is already
lower-cased to model the `/i` flag). -/
def scanNumUnit (units : List JStr) : JStr → Option (Nat × JStr)
  | [] => none
  | c :: r =>
    if CCls.memb .digit c then
      let (ds, rest) := takeDigits (c :: r)
      match units.find? (fun u => startsWithJ (skipWs rest) u) with
      | some u => some (digitsToNat ds, u)
      | none => scanNumUnit units r
    else scanNumUnit units r

/-- `parseTimeframeToHours(timeframe)`: `(\d+)\s*(hour|day|week)s?/i`, default
24 hours on no match. -/
def parseTimeframeToHours (timeframe : JStr) : Nat :=
  match scanNumUnit [jstr "hour", jstr "day", jstr "week"] (jsToLower timeframe) with
  | none => 24
  | some (v, u) =>
    if u = jstr "hour" then v
    else if u = jstr "day" then v * 24
    else v * 24 * 7

/-- `parseTimeframeToDays(timeframe)`: `(\d+)\s*(day|week|month)s?/i`, default
7 days on no match. -/
def parseTimeframeToDays (timeframe : JStr) : Nat :=
  match scanNumUnit [jstr "day", jstr "week", jstr "month"] (jsToLower timeframe) with
  | none => 7
  | some (v, u) =>
    if u = jstr "day" then v
    else if u = jstr "week" then v * 7
    else v * 30

/-- `x || d` of JavaScript on a possibly-absent number, rational model. -/
def jsOrRat (x : Option Rat) (d : Rat) : Rat :=
  match x with
  | none => d
  | some v => if v = 0 then d else v

/-- Join query-string parts with `&` (as `URLSearchParams.toString` does;
percent-encoding of the opaque values is a wire-format detail, elided). -/
def joinAmp : List JStr → JStr
  | [] => []
  | [x] => x
  | x :: xs => x ++ 38 :: joinAmp xs

/-- One entry of `data.patterns` as read by the pattern announcer
(`ptype` embeds the `type` field; `confidence` is a JS number, modelled as a
rational). -/
structure LtmPattern where
  ptype : JStr
  confidence : Rat
  deriving DecidableEq, Repr

/-- The `data.summary` of the pattern-analysis endpoint. -/
structure PatternSummary where
  high_confidence_patterns : Nat
  critical_severity : Nat
  deriving DecidableEq, Repr

/-- Payload of `/api/ltm/patterns/analyze` as read by `handlePatternAnalysis`. -/
structure PatternResp where
  success : Bool
  patterns : List LtmPattern
  patterns_detected : Nat
  summary : PatternSummary
  deriving DecidableEq, Repr

/-- One entry of `data.predictions` (`ptype` embeds `type`). -/
structure LtmPrediction where
  ptype : JStr
  probability : Rat
  deriving DecidableEq, Repr

/-- The `data.summary` of the prediction endpoint. -/
structure PredSummary where
  high_confidence_predictions : Nat
  critical_predictions : Nat
  deriving DecidableEq, Repr

/-- Payload of `/api/ltm/predictions/generate` as read by
`handlePredictiveAnalysis`. -/
structure PredResp where
  success : Bool
  predictions : List LtmPrediction
  predictions_generated : Nat
  time_horizon_days : Nat
  summary : PredSummary
  deriving DecidableEq, Repr

/-- `memory_statistics` of the insights endpoint (fields defaulted by `|| 0`). -/
structure MemoryStats where
  total_events : Option Nat := none
  total_patterns : Option Nat := none
  total_voice_interactions : Option Nat := none
  voice_success_rate : Option Rat := none
  deriving DecidableEq, Repr

/-- One `voice_insights` entry. -/
structure VoiceInsight where
  description : JStr
  deriving DecidableEq, Repr

/-- `recent_activity` of the insights endpoint. -/
structure RecentActivity where
  patterns_detected_24h : Nat
  predictions_generated : Nat
  critical_predictions : Nat
  deriving DecidableEq, Repr

/-- `data.ltm_analytics` of `/api/ltm/analytics/insights`. -/
structure LtmAnalytics where
  memory_statistics : MemoryStats
  voice_insights : List VoiceInsight
  recent_activity : RecentActivity
  deriving DecidableEq, Repr

/-- Payload of `/api/ltm/analytics/insights`. -/
structure InsightsResp where
  success : Bool
  ltm_analytics : LtmAnalytics
  deriving DecidableEq, Repr

/-- One entry of `data.attack_paths`. -/
structure AttackPath where
  shortest_path_length : Nat
  risk_score : Rat
  deriving DecidableEq, Repr

/-- The `data.summary` of the attack-path endpoint. -/
structure PathSummary where
  high_risk_paths : Nat
  short_attack_paths : Nat
  deriving DecidableEq, Repr

/-- Payload of `/api/ltm/graph/attack-paths`. -/
structure PathsResp where
  success : Bool
  attack_paths : List AttackPath
  attack_paths_analyzed : Nat
  summary : PathSummary
  deriving DecidableEq, Repr

/-- `announcePatternResults(data)`. -/
def announcePatternResults (d : PatternResp) : JStr :=
  jstr "Pattern analysis complete. " ++
  jstr "Detected " ++ natDec d.patterns_detected ++ jstr " patterns. " ++
  (if d.summary.high_confidence_patterns > 0 then
    natDec d.summary.high_confidence_patterns ++
      jstr " high-confidence patterns found. " else []) ++
  (if d.summary.critical_severity > 0 then
    natDec d.summary.critical_severity ++
      jstr " critical severity patterns require attention. " else []) ++
  (match d.patterns.head? with
   | some p => jstr "Top pattern: " ++ p.ptype ++ jstr " with " ++
       intDec (jsRound (p.confidence * 100)) ++ jstr "% confidence."
   | none => [])

/-- `announcePredictionResults(data)`. -/
def announcePredictionResults (d : PredResp) : JStr :=
  jstr "Predictive analysis complete. " ++
  jstr "Generated " ++ natDec d.predictions_generated ++
    jstr " predictions for the next " ++ natDec d.time_horizon_days ++ jstr " days. " ++
  (if d.summary.high_confidence_predictions > 0 then
    natDec d.summary.high_confidence_predictions ++
      jstr " high-confidence predictions. " else []) ++
  (if d.summary.critical_predictions > 0 then
    natDec d.summary.critical_predictions ++
      jstr " critical predictions require immediate attention. " else []) ++
  (match d.predictions.head? with
   | some p => jstr "Highest probability: " ++ p.ptype ++ jstr " with " ++
       intDec (jsRound (p.probability * 100)) ++ jstr "% likelihood."
   | none => [])

/-- `announceLearningInsights(data, topic)` (the topic parameter is unused in
the source body). -/
def announceLearningInsights (d : InsightsResp) (_topic : JStr) : JStr :=
  let stats := d.ltm_analytics.memory_statistics
  jstr "LTM has learned from " ++ natDec (jsOrNat stats.total_events 0) ++
    jstr " network events, " ++
  jstr "detected " ++ natDec (jsOrNat stats.total_patterns 0) ++ jstr " patterns, " ++
  jstr "and processed " ++ natDec (jsOrNat stats.total_voice_interactions 0) ++
    jstr " voice interactions. " ++
  jstr "Voice command success rate: " ++
    intDec (jsRound (jsOrRat stats.voice_success_rate 0 * 100)) ++ jstr "%. " ++
  (match d.ltm_analytics.voice_insights.head? with
   | some i => jstr "Key insight: " ++ i.description
   | none => [])

/-- `announceAttackPathResults(data)`. -/
def announceAttackPathResults (d : PathsResp) : JStr :=
  jstr "Attack path analysis complete. " ++
  jstr "Analyzed " ++ natDec d.attack_paths_analyzed ++ jstr " potential paths. " ++
  (if d.summary.high_risk_paths > 0 then
    natDec d.summary.high_risk_paths ++
      jstr " high-risk attack paths identified. " else []) ++
  (if d.summary.short_attack_paths > 0 then
    natDec d.summary.short_attack_paths ++
      jstr " paths with 3 or fewer hops require immediate attention. " else []) ++
  (match d.attack_paths.head? with
   | some p => jstr "Highest risk path: " ++ natDec p.shortest_path_length ++
       jstr " hops with risk score " ++ intDec (jsRound (p.risk_score * 100)) ++
       jstr "."
   | none => [])

/-- `announceComprehensiveInsights(data)`. -/
def announceComprehensiveInsights (d : InsightsResp) : JStr :=
  let recent := d.ltm_analytics.recent_activity
  jstr "LTM intelligence summary: " ++ natDec recent.patterns_detected_24h ++
    jstr " patterns detected in last 24 hours, " ++
    natDec recent.predictions_generated ++ jstr " predictions generated. " ++
  (if recent.critical_predictions > 0 then
    natDec recent.critical_predictions ++
      jstr " critical predictions require attention. " else []) ++
  jstr "System learning effectiveness is optimal with continuous pattern recognition active."

/-- `handlePatternAnalysis(matches)`: gated on the capability flag; when
enabled, the intro announcement, the data call, the response-dependent
announcement and the learning POST (the `context` capture is unused in the
source body; `resp = none` models a caught transport error). -/
def handlePatternAnalysis (ltmEnabled : Bool) (_context timeframe : Option JStr)
    (resp : Option PatternResp) : List Effect :=
  if !ltmEnabled then [.speak ltmNotAvailableMsg]
  else
    let url := jstr "/api/ltm/patterns/analyze" ++
      (if truthyO timeframe then
        jstr "?time_window_hours=" ++
          natDec (parseTimeframeToHours (timeframe.getD []))
      else [])
    .speak (jstr "Analyzing network patterns using LTM intelligence") ::
    .fetch url ::
    (match resp with
     | none => [.speak (jstr "Unable to analyze patterns at this time")]
     | some d =>
       (if d.success && !d.patterns.isEmpty then
         [.speak (announcePatternResults d), .display (jstr "patternResults")]
       else
         [.speak (jstr "No significant patterns detected in the specified timeframe")]) ++
       [.fetchPost ltmVoiceCommandUrl])

/-- `handlePredictiveAnalysis(matches)`: capability-gated prediction request. -/
def handlePredictiveAnalysis (ltmEnabled : Bool) (brandRaw : JStr)
    (timeframeRaw : Option JStr) (resp : Option PredResp) : List Effect :=
  if !ltmEnabled then [.speak ltmNotAvailableMsg]
  else
    let brand := normalizeBrandName brandRaw
    let timeframe := jsOrS timeframeRaw (jstr "7 days")
    let url := jstr "/api/ltm/predictions/generate?entities=" ++ brand ++
      jstr "&time_horizon_days=" ++ natDec (parseTimeframeToDays timeframe)
    .speak (jstr "Generating predictive security analysis for " ++
      getBrandDisplayName brand) ::
    .fetch url ::
    (match resp with
     | none => [.speak (jstr "Unable to generate predictions at this time")]
     | some d =>
       (if d.success && !d.predictions.isEmpty then
         [.speak (announcePredictionResults d), .display (jstr "predictionResults")]
       else
         [.speak (jstr "No significant predictions for " ++
           getBrandDisplayName brand ++ jstr " in the next " ++ timeframe)]) ++
       [.fetchPost ltmVoiceCommandUrl])

/-- `handleLearningQuery(matches)`: capability-gated learning-database query. -/
def handleLearningQuery (ltmEnabled : Bool) (topic : JStr)
    (resp : Option InsightsResp) : List Effect :=
  if !ltmEnabled then [.speak ltmNotAvailableMsg]
  else
    .speak (jstr "Querying LTM learning database about " ++ topic) ::
    .fetch (jstr "/api/ltm/analytics/insights") ::
    (match resp with
     | none => [.speak (jstr "Unable to access learning database")]
     | some d =>
       (if d.success then [.speak (announceLearningInsights d topic)]
        else [.speak (jstr "Unable to retrieve learning insights")]) ++
       [.fetchPost ltmVoiceCommandUrl])

/-- `handleAttackPathAnalysis(matches)`: capability-gated graph analysis. -/
def handleAttackPathAnalysis (ltmEnabled : Bool) (source target : Option JStr)
    (resp : Option PathsResp) : List Effect :=
  if !ltmEnabled then [.speak ltmNotAvailableMsg]
  else
    let qs := (if truthyO source then
        [jstr "source_entities=" ++ source.getD []] else []) ++
      (if truthyO target then [jstr "target_entities=" ++ target.getD []] else [])
    let url := jstr "/api/ltm/graph/attack-paths" ++
      (if qs.isEmpty then [] else 63 :: joinAmp qs)
    .speak (jstr "Analyzing potential attack paths using network graph intelligence") ::
    .fetch url ::
    (match resp with
     | none => [.speak (jstr "Unable to analyze attack paths")]
     | some d =>
       (if d.success && !d.attack_paths.isEmpty then
         [.speak (announceAttackPathResults d)]
       else [.speak (jstr "No significant attack paths identified")]) ++
       [.fetchPost ltmVoiceCommandUrl])

/-- `handleLTMInsights(matches)`: capability-gated comprehensive insights
(the `context` capture is unused in the source body). -/
def handleLTMInsights (ltmEnabled : Bool) (_context : Option JStr)
    (resp : Option InsightsResp) : List Effect :=
  if !ltmEnabled then [.speak ltmNotAvailableMsg]
  else
    .speak (jstr "Retrieving comprehensive LTM intelligence insights") ::
    .fetch (jstr "/api/ltm/analytics/insights") ::
    (match resp with
     | none => [.speak (jstr "Unable to access LTM insights")]
     | some d =>
       (if d.success then
         [.speak (announceComprehensiveInsights d), .display (jstr "ltmDashboard")]
        else [.speak (jstr "Unable to retrieve LTM insights")]) ++
       [.fetchPost ltmVoiceCommandUrl])

/-! ## Output sinks (`voice-interface.js` / `voice-accessibility.js`)

The audio sink and the two assistive-technology live regions created by
`createLiveRegions` (`statusLiveRegion`, `aria-live="polite"`, and
`alertLiveRegion`, `aria-live="assertive"`). -/

/-- The output sinks: the speech-synthesis audio sink (at most one in-flight
utterance) and the text content of the two live regions. -/
structure OutputState where
  audioCurrent : Option JStr := none
  statusRegion : JStr := []
  alertRegion : JStr := []
  deriving DecidableEq, Repr

/-- `speak(text)` of `voice-interface.js`: cancels any in-flight utterance
(`synthesis.cancel()` while speaking) and hands the new utterance to the
synthesis service — last writer wins.  The function body touches only the
speech-synthesis service; no call into the live regions occurs here (and
`updateLiveRegion` has no caller anywhere in the source). -/
def viSpeak (text : JStr) (st : OutputState) : OutputState :=
  { st with audioCurrent := some text }

/-- `updateLiveRegion(message, type)` of `voice-accessibility.js`: a direct,
uncancellable text assignment to the region selected by `type` (`'alert'` →
the assertive region, otherwise the polite status region; the source default
for `type` is `'status'`). -/
def updateLiveRegion (message ty : JStr) (st : OutputState) : OutputState :=
  if ty = jstr "alert" then { st with alertRegion := message }
  else { st with statusRegion := message }

/-- One `pushContext` step, taking the entry as a whole (used to state
properties of push sequences). -/
def pushEntryState (st : EngineState) (e : ContextEntry) : EngineState :=
  pushContext e.ctype e.data e.timestamp st

/-- Eleven distinct context entries (a concrete push sequence exceeding the
stack capacity by one). -/
def elevenEntries : List ContextEntry :=
  (List.range 11).map fun i => ⟨jstr "investigation", {}, i⟩

/-- A concrete single-entry context stack. -/
def singleEntryState : EngineState :=
  { initState with contextStack := [⟨jstr "investigation", {}, 0⟩] }

/-! ## Supporting lemmas -/

/-- Away from the inherited `Object.prototype` member names, the value-level
brand normalization coincides with the string-level model used inside the
handler embeddings. -/
lemma normalizeBrandNameJs_agrees (u : JStr)
    (h : objectProtoKeys.contains (jsToLower u) = false) :
    normalizeBrandNameJs u = .str (normalizeBrandName u) := by
  unfold normalizeBrandNameJs normalizeBrandName
  cases hlk : assocLookup brandMap (jsToLower u) with
  | some code => rfl
  | none =>
    have hc : ¬ objectProtoKeys.contains (jsToLower u) = true := by
      rw [h]
      simp
    rw [if_neg hc]

lemma pushEntryState_stack (st : EngineState) (e : ContextEntry) :
    (pushEntryState st e).contextStack =
      if (st.contextStack ++ [e]).length > 10 then (st.contextStack ++ [e]).tail
      else st.contextStack ++ [e] := rfl

/-- Closed form of a push sequence: the capacity-10 suffix of the appended
entries (eviction always removes from the front, one entry per overflowing
push). -/
lemma pushAll_stack (es : List ContextEntry) :
    ∀ st : EngineState, st.contextStack.length ≤ 10 →
      (es.foldl pushEntryState st).contextStack =
        (st.contextStack ++ es).drop (st.contextStack.length + es.length - 10) := by
  induction es with
  | nil =>
    intro st h
    simp [Nat.sub_eq_zero_of_le h]
  | cons e es ih =>
    intro st h
    rw [List.foldl_cons]
    rcases Nat.lt_or_ge st.contextStack.length 10 with hlt | hge
    · have hstack : (pushEntryState st e).contextStack = st.contextStack ++ [e] := by
        rw [pushEntryState_stack, if_neg]
        simp only [List.length_append, List.length_singleton, List.length_cons,
          List.length_nil]
        omega
      have hlen : (pushEntryState st e).contextStack.length ≤ 10 := by
        rw [hstack]
        simp only [List.length_append, List.length_singleton, List.length_cons,
          List.length_nil]
        omega
      rw [ih _ hlen, hstack]
      rw [show (st.contextStack ++ [e]).length + es.length - 10 =
          st.contextStack.length + (e :: es).length - 10 by
        simp only [List.length_append, List.length_singleton, List.length_cons,
          List.length_nil]
        omega]
      rw [List.append_assoc, List.singleton_append]
    · have h10 : st.contextStack.length = 10 := Nat.le_antisymm h hge
      obtain ⟨a, as, hst⟩ : ∃ a as, st.contextStack = a :: as := by
        cases hcs : st.contextStack with
        | nil => rw [hcs] at h10; simp at h10
        | cons a as => exact ⟨a, as, rfl⟩
      have has : as.length = 9 := by
        rw [hst] at h10
        simpa using h10
      have hstack : (pushEntryState st e).contextStack = as ++ [e] := by
        rw [pushEntryState_stack, hst, if_pos]
        · rfl
        · simp only [List.cons_append, List.length_cons, List.length_append,
            List.length_singleton, List.length_nil]
          omega
      have hlen : (pushEntryState st e).contextStack.length ≤ 10 := by
        rw [hstack]
        simp only [List.length_append, List.length_singleton, List.length_cons,
          List.length_nil, has]
        omega
      rw [ih _ hlen, hstack, hst]
      rw [show (as ++ [e]).length + es.length - 10 = es.length by
        simp only [List.length_append, List.length_singleton, List.length_cons,
          List.length_nil, has]; omega]
      rw [show (a :: as).length + (e :: es).length - 10 = es.length + 1 by
        simp only [List.length_cons, has]; omega]
      rw [List.append_assoc, List.singleton_append, List.cons_append,
        List.drop_succ_cons]

/-- The element appended by a capacity-bounded push is the new top entry
(the eviction, when it fires, removes from the front of a list of length
eleven, so the appended element survives). -/
lemma getLast?_ite_push (l : List ContextEntry) (e : ContextEntry) (p : Prop)
    [Decidable p] (hp : p → l ≠ []) :
    (if p then (l ++ [e]).tail else l ++ [e]).getLast? = some e := by
  split
  · rename_i h
    obtain ⟨a, as, rfl⟩ := List.exists_cons_of_ne_nil (hp h)
    rw [List.cons_append, List.tail_cons]
    exact List.getLast?_concat _
  · exact List.getLast?_concat _

/-- Restoring the entry on top of a state whose navigation fields agree with
that entry's snapshot reproduces all navigation fields of the pre-pop state
(the non-`investigation`, non-`log-search` context types fall through
`restoreContext` unchanged, and the pop itself does not touch navigation
fields). -/
lemma restore_fields_eq (s1 : EngineState) (e : ContextEntry)
    (hget : getCurrentContext s1 = some e)
    (hty1 : e.ctype = jstr "investigation" →
      s1.activeSection = jstr "investigation" ∧
      e.data.brand = some s1.investigationBrand ∧
      e.data.storeId = some s1.investigationStore)
    (hty2 : e.ctype = jstr "log-search" →
      s1.activeSection = jstr "log-analysis" ∧
      e.data.query = some s1.logSearchQuery) :
    (restoreContext (getCurrentContext s1) (popCurrent s1)).activeSection =
      s1.activeSection ∧
    (restoreContext (getCurrentContext s1) (popCurrent s1)).investigationBrand =
      s1.investigationBrand ∧
    (restoreContext (getCurrentContext s1) (popCurrent s1)).investigationStore =
      s1.investigationStore ∧
    (restoreContext (getCurrentContext s1) (popCurrent s1)).logSearchQuery =
      s1.logSearchQuery ∧
    (restoreContext (getCurrentContext s1) (popCurrent s1)).logSearchBrand =
      s1.logSearchBrand ∧
    (restoreContext (getCurrentContext s1) (popCurrent s1)).webfilterBrand =
      s1.webfilterBrand ∧
    (restoreContext (getCurrentContext s1) (popCurrent s1)).webfilterStoreId =
      s1.webfilterStoreId := by
  rw [hget]
  simp only [restoreContext]
  by_cases h1 : e.ctype = jstr "investigation"
  · obtain ⟨hsec, hbr, hsid⟩ := hty1 h1
    rw [if_pos h1, hbr, hsid]
    simp only [truthyO, showSection, popCurrent, Option.getD_some]
    split_ifs <;> simp_all
  · rw [if_neg h1]
    by_cases h2 : e.ctype = jstr "log-search"
    · obtain ⟨hsec, hq⟩ := hty2 h2
      rw [if_pos h2, hq]
      simp only [truthyO, showSection, popCurrent, Option.getD_some]
      split_ifs <;> simp_all
    · rw [if_neg h2]
      simp [popCurrent]

/-! ## Claim theorems -/

/-- **C1** — counterexample.  The claim says exact-phrase lookup is resolution
step 1 and the grammar scan is step 3; but the override installed by
`voice-commands.js` scans the grammar first.  The utterance `refresh data` is
an exact key of the table (bound to the refresh system action), yet dispatch
invokes the grammar handler `handleShowMore` (whose unanchored pattern
`(?:show\s+me\s+)?(?:more\s+)?(?:details|information|data)` matches the
substring `data`) and never runs the table action. -/
theorem exactKeyPreemptedByGrammar :
    lookupExact (jstr "refresh data") = some (.system (jstr "refresh")) ∧
    processVoiceCommand false initState (jstr "refresh data") =
      (initState, [.invoke (jstr "handleShowMore")]) ∧
    Effect.runAction (.system (jstr "refresh")) ∉
      (processVoiceCommand false initState (jstr "refresh data")).2 :=
  ⟨by decide, by decide, by decide⟩

/-- **C1** — amended claim: the ordered grammar scan is resolution step 1; for
every utterance matching no grammar pattern, exact-phrase lookup comes next
and its table action is invoked before, and instead of, the substring layer
and the fallback extractors. -/
theorem exactLookupAfterGrammar (ltm : Bool) (st : EngineState) (t : JStr)
    (a : CmdAction) (hg : findGrammar ltm t = none) (he : lookupExact t = some a) :
    processVoiceCommand ltm st t =
      (st, [.speak (jstr "Command recognized"), .runAction a]) := by
  unfold processVoiceCommand originalProcessCommand jsGetVoiceCommands
  rw [hg, he]

/-- **C1** — witness: `health check` matches no grammar pattern and is an
exact key, so its table action runs. -/
theorem exactLookupAfterGrammar_witness :
    processVoiceCommand false initState (jstr "health check") =
      (initState, [.speak (jstr "Command recognized"),
        .runAction (.system (jstr "health"))]) :=
  exactLookupAfterGrammar false initState (jstr "health check")
    (.system (jstr "health")) (by decide) (by decide)

/-- **C2** — the code violates the claim.  The utterance `constructor`
matches no grammar pattern, no authored exact-phrase key, no bidirectional
substring of a key, and neither fallback extractor, yet the bracket read
`this.voiceCommands[transcript]` hits the inherited
`Object.prototype.constructor`, which is truthy: dispatch speaks "Command
recognized" and calls the inherited member instead of emitting the fixed
"not recognized" announcement.  At `__proto__` (same non-matching
hypotheses) the looked-up value is the prototype object, which is not a
function, so the call throws a TypeError — contradicting "raises no
exception" (spec: "unrecognized input is non-fatal by design"). -/
theorem protoChainLookupBug :
    findGrammar false (jstr "constructor") = none ∧
    lookupExact (jstr "constructor") = none ∧
    findSubstrKey (jstr "constructor") = none ∧
    rxSearch rxFbStore (jstr "constructor") = false ∧
    rxSearchEnd rxFbSearch (jstr "constructor") = false ∧
    processVoiceCommand false initState (jstr "constructor") =
      (initState, [.speak (jstr "Command recognized"),
        .callInherited (jstr "constructor")]) ∧
    processVoiceCommand true initState (jstr "constructor") =
      (initState, [.speak (jstr "Command recognized"),
        .callInherited (jstr "constructor")]) ∧
    findGrammar false (jstr "__proto__") = none ∧
    lookupExact (jstr "__proto__") = none ∧
    processVoiceCommand false initState (jstr "__proto__") =
      (initState, [.speak (jstr "Command recognized"), .throwTypeError]) :=
  ⟨by decide, by decide, by decide, by decide, by decide, by decide, by decide,
   by decide, by decide, by decide⟩

/-- **C3** — after any sequence of context pushes starting from a stack within
capacity, the stack length never exceeds 10; and pushing 11 entries onto an
empty stack leaves exactly the last 10 (the tail of the sequence), so the
first-pushed entry has been evicted and go-back traversal (which only pops
this stack) can never reach it. -/
theorem contextStackBounded (st : EngineState) (h : st.contextStack.length ≤ 10)
    (es : List ContextEntry) :
    (es.foldl pushEntryState st).contextStack.length ≤ 10 ∧
    (st.contextStack = [] → es.length = 11 →
      (es.foldl pushEntryState st).contextStack = es.tail) ∧
    (st.contextStack = [] → es.length = 11 →
      ∀ e, e ∈ (es.foldl pushEntryState st).contextStack → e ∈ es.tail) := by
  have hclosed := pushAll_stack es st h
  have htail : st.contextStack = [] → es.length = 11 →
      (es.foldl pushEntryState st).contextStack = es.tail := by
    intro h0 h11
    rw [hclosed, h0, h11]
    simp [List.drop_one]
  refine ⟨?_, htail, ?_⟩
  · rw [hclosed]
    simp only [List.length_drop, List.length_append]
    omega
  · intro h0 h11 e he
    rw [htail h0 h11] at he
    exact he

/-- **C3** — witness: eleven concrete pushes from the empty startup stack; the
first-pushed entry (timestamp 0) is no longer in the stack. -/
theorem contextStackBounded_witness :
    (elevenEntries.foldl pushEntryState initState).contextStack.length ≤ 10 ∧
    (elevenEntries.foldl pushEntryState initState).contextStack =
      elevenEntries.tail ∧
    (⟨jstr "investigation", {}, 0⟩ : ContextEntry) ∉
      (elevenEntries.foldl pushEntryState initState).contextStack :=
  ⟨(contextStackBounded initState (by decide) elevenEntries).1,
   (contextStackBounded initState (by decide) elevenEntries).2.1 rfl (by decide),
   by decide⟩

/-- **C4** — round trip: for every context-pushing handler (any context type)
run from any state, popping the pushed entry and then restoring it reproduces
the active section and every brand/store/query navigation field exactly as
they were before the pop. -/
theorem contextRoundTrip (c : HandlerCall) (ts : Nat) (st : EngineState) :
    (restoreContext (getCurrentContext (runHandler c ts st).1)
        (popCurrent (runHandler c ts st).1)).activeSection =
      (runHandler c ts st).1.activeSection ∧
    (restoreContext (getCurrentContext (runHandler c ts st).1)
        (popCurrent (runHandler c ts st).1)).investigationBrand =
      (runHandler c ts st).1.investigationBrand ∧
    (restoreContext (getCurrentContext (runHandler c ts st).1)
        (popCurrent (runHandler c ts st).1)).investigationStore =
      (runHandler c ts st).1.investigationStore ∧
    (restoreContext (getCurrentContext (runHandler c ts st).1)
        (popCurrent (runHandler c ts st).1)).logSearchQuery =
      (runHandler c ts st).1.logSearchQuery ∧
    (restoreContext (getCurrentContext (runHandler c ts st).1)
        (popCurrent (runHandler c ts st).1)).logSearchBrand =
      (runHandler c ts st).1.logSearchBrand ∧
    (restoreContext (getCurrentContext (runHandler c ts st).1)
        (popCurrent (runHandler c ts st).1)).webfilterBrand =
      (runHandler c ts st).1.webfilterBrand ∧
    (restoreContext (getCurrentContext (runHandler c ts st).1)
        (popCurrent (runHandler c ts st).1)).webfilterStoreId =
      (runHandler c ts st).1.webfilterStoreId := by
  cases c with
  | storeInvestigation brandRaw storeId focus =>
    by_cases hf : truthyO focus <;>
    · refine restore_fields_eq _
        ⟨jstr "investigation",
          ⟨some (normalizeBrandName brandRaw), some storeId, focus,
            none, none, none, none, none, none⟩, ts⟩ ?_ ?_ ?_
      · simp only [runHandler, getCurrentContext, pushContext, showSection, hf,
          if_true, if_false]
        exact getLast?_ite_push _ _ _
          (fun h => List.ne_nil_of_length_pos (by simp at h ⊢; omega))
      · intro _
        refine ⟨?_, ?_, ?_⟩ <;>
          simp [runHandler, showSection, hf]
      · intro h
        simp only [] at h
        exact absurd h (by decide)
  | advancedLogSearch query context source timeframeRaw =>
    by_cases hc : truthyO context <;>
    by_cases hsrc : truthyO source <;>
    by_cases hb : (normalizeBrandName (context.getD [])).isEmpty <;>
    · refine restore_fields_eq _
        ⟨jstr "log-search",
          ⟨none, none, none, some query, context, source,
            some (jsOrS (parseTimeframe timeframeRaw) (jstr "24h")),
            none, none⟩, ts⟩ ?_ ?_ ?_
      · simp only [runHandler, getCurrentContext, pushContext, showSection,
          hc, hsrc, hb, if_true, if_false]
        exact getLast?_ite_push _ _ _
          (fun h => List.ne_nil_of_length_pos (by simp at h ⊢; omega))
      · intro h
        simp only [] at h
        exact absurd h (by decide)
      · intro _
        refine ⟨?_, ?_⟩ <;>
          simp [runHandler, showSection, hc, hsrc, hb]
  | securityEvents severity context =>
    refine restore_fields_eq _
      ⟨jstr "security-events",
        ⟨none, none, none, none, context, none, none, some severity, none⟩,
        ts⟩ ?_ ?_ ?_
    · simp only [runHandler, getCurrentContext, pushContext, showSection]
      exact getLast?_ite_push _ _ _
        (fun h => List.ne_nil_of_length_pos (by simp at h ⊢; omega))
    · intro h
      simp only [] at h
      exact absurd h (by decide)
    · intro h
      simp only [] at h
      exact absurd h (by decide)
  | threatIntelligence brandRaw timeframeRaw =>
    refine restore_fields_eq _
      ⟨jstr "threat-intelligence",
        ⟨some (normalizeBrandName brandRaw), none, none, none, none, none,
          some (jsOrS (parseTimeframe timeframeRaw) (jstr "24h")), none, none⟩,
        ts⟩ ?_ ?_ ?_
    · simp only [runHandler, getCurrentContext, pushContext, showSection]
      exact getLast?_ite_push _ _ _
        (fun h => List.ne_nil_of_length_pos (by simp at h ⊢; omega))
    · intro h
      simp only [] at h
      exact absurd h (by decide)
    · intro h
      simp only [] at h
      exact absurd h (by decide)
  | webFilterStatus brandRaw storeId =>
    by_cases hs : truthyO storeId <;>
    · refine restore_fields_eq _
        ⟨jstr "web-filter-status",
          ⟨some (normalizeBrandName brandRaw), storeId, none, none, none,
            none, none, none, none⟩, ts⟩ ?_ ?_ ?_
      · simp only [runHandler, getCurrentContext, pushContext, showSection, hs,
          if_true, if_false]
        exact getLast?_ite_push _ _ _
          (fun h => List.ne_nil_of_length_pos (by simp at h ⊢; omega))
      · intro h
        simp only [] at h
        exact absurd h (by decide)
      · intro h
        simp only [] at h
        exact absurd h (by decide)
  | reportGeneration reportTypeRaw brandRaw storeId timeframeRaw =>
    refine restore_fields_eq _
      ⟨jstr "report-generation",
        ⟨some (normalizeBrandName brandRaw), storeId, none, none, none, none,
          some (jsOrS (parseTimeframe timeframeRaw) (jstr "7d")), none,
          some (jsOrS reportTypeRaw (jstr "security"))⟩, ts⟩ ?_ ?_ ?_
    · simp only [runHandler, getCurrentContext, pushContext, showSection]
      exact getLast?_ite_push _ _ _
        (fun h => List.ne_nil_of_length_pos (by simp at h ⊢; omega))
    · intro h
      simp only [] at h
      exact absurd h (by decide)
    · intro h
      simp only [] at h
      exact absurd h (by decide)

/-- **C5** — with 100 total threats, the threat-intelligence announcer reports
the "excellent" tier at 96 blocked (rate 96% > 95), the "good" tier at 91
blocked (91% > 90), and the default tier at 80 blocked; the full announcement
strings are computed exactly. -/
theorem threatTierThresholds :
    announceThreatIntelligence ⟨some ⟨some 100, some 96⟩⟩ =
      [.speak (jstr "Threat intelligence summary: 100 total threats detected, 96 successfully blocked. Block rate: 96%. Excellent threat protection.")] ∧
    announceThreatIntelligence ⟨some ⟨some 100, some 91⟩⟩ =
      [.speak (jstr "Threat intelligence summary: 100 total threats detected, 91 successfully blocked. Block rate: 91%. Good threat protection.")] ∧
    announceThreatIntelligence ⟨some ⟨some 100, some 80⟩⟩ =
      [.speak (jstr "Threat intelligence summary: 100 total threats detected, 80 successfully blocked. Block rate: 80%. Consider reviewing security policies.")] := by
  have h96 : blockRatePercent ⟨some 100, some 96⟩ = 96 := by
    norm_num [blockRatePercent, threatDenominator, jsOrNat, jsRound]
  have h91 : blockRatePercent ⟨some 100, some 91⟩ = 91 := by
    norm_num [blockRatePercent, threatDenominator, jsOrNat, jsRound]
  have h80 : blockRatePercent ⟨some 100, some 80⟩ = 80 := by
    norm_num [blockRatePercent, threatDenominator, jsOrNat, jsRound]
  refine ⟨?_, ?_, ?_⟩
  · simp only [announceThreatIntelligence, h96]
    decide
  · simp only [announceThreatIntelligence, h91]
    decide
  · simp only [announceThreatIntelligence, h80]
    decide

/-- **C6** — when both metric fields are missing or zero, the rate denominator
is 1 (never zero, so no division by zero), the block rate is 0%, the counts
default to zero, and the announcement reports the default tier. -/
theorem zeroThreatsSafe (t : ThreatSummary)
    (h1 : jsOrNat t.total_threats 0 = 0) (h2 : jsOrNat t.blocked_threats 0 = 0) :
    threatDenominator t = 1 ∧ 0 < threatDenominator t ∧ blockRatePercent t = 0 ∧
    announceThreatIntelligence ⟨some t⟩ =
      [.speak (jstr "Threat intelligence summary: 0 total threats detected, 0 successfully blocked. Block rate: 0%. Consider reviewing security policies.")] := by
  have hd : threatDenominator t = 1 := by
    unfold threatDenominator jsOrNat
    unfold jsOrNat at h1
    cases htt : t.total_threats with
    | none => rfl
    | some v =>
      simp only [htt] at h1
      show max (if v = 0 then 1 else v) 1 = 1
      split_ifs at h1 ⊢ with hv
      · rfl
      · omega
  have hr : blockRatePercent t = 0 := by
    unfold blockRatePercent
    rw [hd, h2]
    norm_num [jsRound]
  refine ⟨hd, by omega, hr, ?_⟩
  simp only [announceThreatIntelligence, h1, h2, hr]
  decide

/-- **C6** — witness: a summary with both fields absent. -/
theorem zeroThreatsSafe_witness :
    blockRatePercent ⟨none, none⟩ = 0 ∧
    announceThreatIntelligence ⟨some ⟨none, none⟩⟩ =
      [.speak (jstr "Threat intelligence summary: 0 total threats detected, 0 successfully blocked. Block rate: 0%. Consider reviewing security policies.")] :=
  ⟨(zeroThreatsSafe ⟨none, none⟩ (by decide) (by decide)).2.2.1,
   (zeroThreatsSafe ⟨none, none⟩ (by decide) (by decide)).2.2.2⟩

/-- **C7** — counterexample.  The claim says unknown input passes through
case-normalized; but at input `constructor` (not an alias of the table) the
bracket read `brandMap[brandInput.toLowerCase()]` hits the inherited
`Object.prototype.constructor`, which is truthy, so the `||` default never
fires and normalization returns the inherited member — not the upper-cased
pass-through.  (Reachable: `handleAdvancedLogSearch` feeds the free-text
`in (.+?)` capture into the normalizer.) -/
theorem brandPassThroughLeak :
    assocLookup brandMap (jstr "constructor") = none ∧
    normalizeBrandNameJs (jstr "constructor") =
      .protoMember (jstr "constructor") ∧
    normalizeBrandNameJs (jstr "constructor") ≠
      .str (jsToUpper (jstr "constructor")) :=
  ⟨by decide, by decide, by decide⟩

/-- **C7** — amended claim: with the full JavaScript read semantics, every
string whose lower-cased form is an alias of the table maps to that alias's
canonical code (case invariance), re-normalizing the produced code returns
the same code (idempotence), and unknown input passes through upper-cased
unless its lower-cased form is an inherited `Object.prototype` member name
(`constructor`, `__proto__`, `toString`, …), in which case the bracket read
leaks the inherited member itself. -/
theorem brandNormalizationAmended (s aliasKey code : JStr)
    (hmem : (aliasKey, code) ∈ brandMap) (hlow : jsToLower s = aliasKey) :
    normalizeBrandNameJs s = .str code ∧
    normalizeBrandNameJs code = .str code ∧
    (∀ u : JStr, assocLookup brandMap (jsToLower u) = none →
      objectProtoKeys.contains (jsToLower u) = false →
      normalizeBrandNameJs u = .str (jsToUpper u)) := by
  have hpass : ∀ u : JStr, assocLookup brandMap (jsToLower u) = none →
      objectProtoKeys.contains (jsToLower u) = false →
      normalizeBrandNameJs u = .str (jsToUpper u) := by
    intro u hu hp
    unfold normalizeBrandNameJs
    rw [hu, hp]
    simp
  have hlk : assocLookup brandMap aliasKey = some code := by
    simp only [brandMap, List.mem_cons, List.not_mem_nil, or_false,
      Prod.mk.injEq] at hmem
    rcases hmem with ⟨rfl, rfl⟩ | ⟨rfl, rfl⟩ | ⟨rfl, rfl⟩ | ⟨rfl, rfl⟩ | ⟨rfl, rfl⟩ <;>
      rfl
  have hidem : normalizeBrandNameJs code = .str code := by
    simp only [brandMap, List.mem_cons, List.not_mem_nil, or_false,
      Prod.mk.injEq] at hmem
    rcases hmem with ⟨rfl, rfl⟩ | ⟨rfl, rfl⟩ | ⟨rfl, rfl⟩ | ⟨rfl, rfl⟩ | ⟨rfl, rfl⟩ <;>
      decide
  have hcode : normalizeBrandNameJs s = .str code := by
    unfold normalizeBrandNameJs
    rw [hlow, hlk]
  exact ⟨hcode, hidem, hpass⟩

/-- **C7** — witness: a mixed-case spelling of the `arbys` alias, with the
idempotence instance at the produced code. -/
theorem brandNormalizationAmended_witness :
    normalizeBrandNameJs (jstr "ArByS") = .str (jstr "ARBYS") ∧
    normalizeBrandNameJs (jstr "ARBYS") = .str (jstr "ARBYS") :=
  ⟨(brandNormalizationAmended (jstr "ArByS") (jstr "arbys") (jstr "ARBYS")
      (by decide) (by decide)).1,
   (brandNormalizationAmended (jstr "ArByS") (jstr "arbys") (jstr "ARBYS")
      (by decide) (by decide)).2.1⟩

/-- **C8** — with exactly one entry on the context stack, dispatching
`go back` selects `handleGoBack` (the only pattern that matches), which takes
the underflow-guarded branch: it announces returning to overview, sets the
active section to `overview`, and leaves the stack untouched (no pop below
empty is attempted). -/
theorem goBackSingleEntry (ltm : Bool) (st : EngineState) (e : ContextEntry)
    (h : st.contextStack = [e]) :
    processVoiceCommand ltm st (jstr "go back") =
      (st, [.invoke (jstr "handleGoBack")]) ∧
    handleGoBack st = ({ st with activeSection := jstr "overview" },
      [.speak (jstr "Going back to overview")]) ∧
    (handleGoBack st).1.contextStack = [e] := by
  have hg : findGrammar ltm (jstr "go back") = some (jstr "handleGoBack") := by
    cases ltm <;> decide
  have hgo : handleGoBack st = ({ st with activeSection := jstr "overview" },
      [.speak (jstr "Going back to overview")]) := by
    unfold handleGoBack
    simp [h, showSection]
  refine ⟨?_, hgo, ?_⟩
  · unfold processVoiceCommand
    rw [hg]
  · rw [hgo]
    simpa using h

/-- **C8** — witness: a concrete single-entry stack. -/
theorem goBackSingleEntry_witness :
    handleGoBack singleEntryState =
      ({ singleEntryState with activeSection := jstr "overview" },
        [.speak (jstr "Going back to overview")]) :=
  (goBackSingleEntry false singleEntryState ⟨jstr "investigation", {}, 0⟩
    rfl).2.1

/-- **C9** — with the LTM capability flag false, each of the five intelligence
handlers (pattern analysis, prediction, learning query, attack path,
insights) produces exactly the fixed "not available" announcement: no fetch,
no learning POST, no other effect, for any captured fields and any would-be
response. -/
theorem ltmGateShortCircuits (ctx tf src tgt tfp : Option JStr)
    (topic brandRaw : JStr) (r1 : Option PatternResp) (r2 : Option PredResp)
    (r3 r5 : Option InsightsResp) (r4 : Option PathsResp) :
    handlePatternAnalysis false ctx tf r1 = [.speak ltmNotAvailableMsg] ∧
    handlePredictiveAnalysis false brandRaw tfp r2 = [.speak ltmNotAvailableMsg] ∧
    handleLearningQuery false topic r3 = [.speak ltmNotAvailableMsg] ∧
    handleAttackPathAnalysis false src tgt r4 = [.speak ltmNotAvailableMsg] ∧
    handleLTMInsights false ctx r5 = [.speak ltmNotAvailableMsg] :=
  ⟨rfl, rfl, rfl, rfl, rfl⟩

/-- **C10** — counterexample.  The claim says both live-text regions are
updated on every announcement emission; but `speak` touches only the
speech-synthesis sink (`updateLiveRegion` has no caller in the source), so
after speaking from a state with empty regions, neither region holds the
announcement. -/
theorem liveRegionsNotUpdatedOnSpeak :
    ¬((viSpeak (jstr "hello") ⟨none, [], []⟩).statusRegion = jstr "hello" ∧
      (viSpeak (jstr "hello") ⟨none, [], []⟩).alertRegion = jstr "hello") := by
  decide

/-- **C10** — amended claim: announcement emission (`speak`) leaves both live
regions unchanged; `updateLiveRegion`, when invoked, updates exactly one
region — the assertive alert region for type `alert`, otherwise the polite
status region — by direct text assignment, independent of (and without
cancelling) the audio sink. -/
theorem liveRegionSinkBehavior (st : OutputState) (text msg ty : JStr) :
    (viSpeak text st).statusRegion = st.statusRegion ∧
    (viSpeak text st).alertRegion = st.alertRegion ∧
    (updateLiveRegion msg ty st).audioCurrent = st.audioCurrent ∧
    (updateLiveRegion msg ty st).alertRegion =
      (if ty = jstr "alert" then msg else st.alertRegion) ∧
    (updateLiveRegion msg ty st).statusRegion =
      (if ty = jstr "alert" then st.statusRegion else msg) := by
  unfold viSpeak updateLiveRegion
  split <;> simp
